import Mathlib

/-!
Shallow embedding of the backup-monitor telemetry collector
(src/chart/app/dns_server.py and src/chart/app/main.py).

Python string operations are modelled over `List Char` (Python indexes
and slices strings by code point, so `List Char` is the faithful carrier);
database and network effects are modelled by explicit state passing plus
boolean parameters for the outcomes of the external calls
(`psycopg2.connect` succeeding, the `INSERT` raising, ...).
-/

namespace BackupMonitor

/-! ## Python string primitives -/

/-- Python `str.split(".")` on the underlying character list: a list of
(possibly empty) chunks between dots.  Like Python, splitting the empty
string yields `[""]`, never the empty list. -/
def splitOnDotL : List Char → List (List Char)
  | [] => [[]]
  | c :: rest =>
    match splitOnDotL rest with
    | h :: t => if c = '.' then [] :: h :: t else (c :: h) :: t
    | [] => [[c]]

/-- Python `s.split(".")`. -/
def pySplitDot (s : String) : List String :=
  (splitOnDotL s.data).map String.mk

/-- Python `s.lower()` (ASCII case folding; domain names here are ASCII). -/
def pyLower (s : String) : String :=
  String.mk (s.data.map Char.toLower)

/-- Python `s.endswith(sfx)`. -/
def pyEndsWith (s sfx : String) : Bool :=
  s.data.drop (s.data.length - sfx.data.length) == sfx.data

/-- Python `s.rstrip(".")`. -/
def pyRstripDot (s : String) : String :=
  String.mk ((s.data.reverse.dropWhile (· = '.')).reverse)

/-- Python `s[:-n]` for `0 < n ≤ len(s)` (the only way it is used here). -/
def pyDropRight (s : String) (n : Nat) : String :=
  String.mk (s.data.take (s.data.length - n))

/-- Python `s.replace("-", ".")`. -/
def pyReplaceDash (s : String) : String :=
  String.mk (s.data.map (fun c => if c = '-' then '.' else c))

/-- Python `s.replace("Z", "+00:00")`. -/
def pyReplaceZ (s : String) : String :=
  String.mk ((s.data.map (fun c => if c = 'Z' then "+00:00".data else [c])).flatten)

/-! ## DNS beacon server (src/chart/app/dns_server.py) -/

/-- `BEACON_SUFFIX = ".b.backup-monitor.gr."` (dns_server.py line 16). -/
def BEACON_SUFFIX : String := ".b.backup-monitor.gr."

/-- A psycopg2 connection as `BeaconResolver` observes it: only the
`closed` flag is ever consulted. -/
structure Conn where
  closed : Bool
deriving DecidableEq, Repr

/-- The mutable state of a `BeaconResolver`: `self._conn` and `self._backoff`. -/
structure ResolverState where
  conn : Option Conn
  backoff : Nat
deriving DecidableEq, Repr

/-- `BeaconResolver.__init__`: `self._conn = None`, `self._backoff = 1`. -/
def initState : ResolverState := ⟨none, 1⟩

/-- The test `self._conn is None or self._conn.closed`, negated: whether the
held connection is present and open. -/
def connUsable : Option Conn → Bool
  | none => false
  | some c => !c.closed

/-- Result of one `_get_conn` call: the returned connection, the updated
resolver state, and the duration of the `time.sleep` performed, if any. -/
structure GetConnResult where
  conn : Option Conn
  state : ResolverState
  slept : Option Nat
deriving DecidableEq, Repr

/-- `BeaconResolver._get_conn` (dns_server.py lines 24-36).  `connectOk`
models whether `psycopg2.connect(DATABASE_URL)` succeeds on this attempt.
On failure the method sets `self._conn = None`, sleeps for the current
backoff, then doubles it capped at 60; on success it resets backoff to 1. -/
def getConn (st : ResolverState) (connectOk : Bool) : GetConnResult :=
  if connUsable st.conn then
    ⟨st.conn, st, none⟩
  else if connectOk then
    ⟨some ⟨false⟩, ⟨some ⟨false⟩, 1⟩, none⟩
  else
    ⟨none, ⟨none, min (st.backoff * 2) 60⟩, some st.backoff⟩

/-- One row of the `dns_beacon_log` table as built by `resolve`. -/
structure DnsRow where
  source_ip : Option String
  source_port : Option Nat
  query_name : String
  fingerprint : Option String
  src_hash : Option String
  tool_version : Option String
deriving DecidableEq, Repr

/-- Result of one `_log_beacon` call: the updated state, the row actually
inserted (if the insert ran and succeeded), and any sleep performed. -/
structure LogResult where
  state : ResolverState
  insertedRow : Option DnsRow
  slept : Option Nat
deriving DecidableEq, Repr

/-- `BeaconResolver._log_beacon` (dns_server.py lines 38-56).  `insertOk`
models whether `cur.execute(INSERT ...)` raises.  On a raise the method
prints, closes the connection (exceptions from `close` ignored) and sets
`self._conn = None`; nothing propagates to the caller. -/
def logBeacon (st : ResolverState) (connectOk insertOk : Bool) (row : DnsRow) : LogResult :=
  let g := getConn st connectOk
  match g.conn with
  | none => ⟨g.state, none, g.slept⟩
  | some _ =>
    if insertOk then ⟨g.state, some row, g.slept⟩
    else ⟨⟨none, g.state.backoff⟩, none, g.slept⟩

/-- DNS reply result codes (dnslib `RCODE`), as far as this service uses them. -/
inductive RCode where
  | NOERROR
  | NXDOMAIN
  | SERVFAIL
deriving DecidableEq, Repr

/-- The decode produced by the matching branch of `BeaconResolver.resolve`
(dns_server.py lines 65-72). -/
structure BeaconDecode where
  matched : Bool
  fingerprint : Option String
  src_hash : Option String
  tool_version : Option String
deriving DecidableEq, Repr

/-- Pure beacon-decoding core of `BeaconResolver.resolve`: suffix match is
case-insensitive; on a match the suffix is cut off, trailing dots stripped,
the remainder split on `.`, and labels mapped by position
(`parts[i] if len(parts) >= i+1 else None`, dashes in label 2 replaced by
dots). -/
def decodeBeacon (qname : String) : BeaconDecode :=
  if pyEndsWith (pyLower qname) (pyLower BEACON_SUFFIX) then
    let stripped := pyRstripDot (pyDropRight qname BEACON_SUFFIX.length)
    let parts := pySplitDot stripped
    { matched := true
      fingerprint := parts[0]?
      src_hash := parts[1]?
      tool_version := (parts[2]?).map pyReplaceDash }
  else
    { matched := false, fingerprint := none, src_hash := none, tool_version := none }

/-- Result of one `resolve` call: the reply's result code, updated state,
the row inserted (if any), whether `_log_beacon` was invoked, and any
sleep performed inside `_get_conn`. -/
structure ResolveResult where
  rcode : RCode
  state : ResolverState
  insertedRow : Option DnsRow
  loggedBeacon : Bool
  slept : Option Nat
deriving DecidableEq, Repr

/-- `BeaconResolver.resolve` (dns_server.py lines 58-81).  `source` is
`handler.client_address` (an `(ip, port)` pair, or absent).  The reply's
rcode is set to NXDOMAIN before any matching happens and is never changed. -/
def resolve (st : ResolverState) (qname : String) (source : Option (String × Nat))
    (connectOk insertOk : Bool) : ResolveResult :=
  let d := decodeBeacon qname
  if d.matched then
    let row : DnsRow :=
      { source_ip := source.map Prod.fst
        source_port := source.map Prod.snd
        query_name := qname
        fingerprint := d.fingerprint
        src_hash := d.src_hash
        tool_version := d.tool_version }
    let lr := logBeacon st connectOk insertOk row
    ⟨RCode.NXDOMAIN, lr.state, lr.insertedRow, true, lr.slept⟩
  else
    ⟨RCode.NXDOMAIN, st, none, false, none⟩

/-- The sleep durations observed over `n` consecutive `_get_conn` calls in
which every connection attempt fails. -/
def failDelays : ResolverState → Nat → List Nat
  | _, 0 => []
  | st, n + 1 =>
    let g := getConn st false
    g.slept.toList ++ failDelays g.state n

/-! ## Telemetry HTTP API (src/chart/app/main.py) -/

/-- A decoded JSON value, as `request.json()` produces it. -/
inductive JValue where
  | null
  | bool (b : Bool)
  | num (n : Int)
  | str (s : String)
  | arr (elts : List JValue)
  | obj (fields : List (String × JValue))
deriving BEq, Repr

/-- Python `dict.get(k)` on a decoded JSON object (keys unique):
`none` when the key is absent. -/
def jget (body : List (String × JValue)) (k : String) : Option JValue :=
  (body.find? (fun p => p.1 == k)).map Prod.snd

/-- A Python `datetime` value as `datetime.fromisoformat` constructs it;
the offset, when aware, is in whole minutes. -/
structure PyDateTime where
  year : Nat
  month : Nat
  day : Nat
  hour : Nat
  minute : Nat
  second : Nat
  microsecond : Nat
  utcOffsetMinutes : Option Int
deriving DecidableEq, Repr

/-- Digit value of an ASCII digit character. -/
def digitVal (c : Char) : Nat := c.toNat - 48

/-- Consume exactly `n` ASCII digits from the front, returning their value. -/
def takeDigitsAux : Nat → Nat → List Char → Option (Nat × List Char)
  | 0, acc, cs => some (acc, cs)
  | _ + 1, _, [] => none
  | n + 1, acc, c :: cs =>
    if c.isDigit then takeDigitsAux n (acc * 10 + digitVal c) cs else none

/-- Consume exactly `n` ASCII digits. -/
def takeDigits (n : Nat) (cs : List Char) : Option (Nat × List Char) :=
  takeDigitsAux n 0 cs

/-- Consume one expected character. -/
def expectChar (c : Char) : List Char → Option (List Char)
  | [] => none
  | x :: xs => if x = c then some xs else none

/-- Gregorian leap-year rule, as `datetime` validates dates. -/
def isLeap (y : Nat) : Bool := (y % 4 == 0 && y % 100 != 0) || y % 400 == 0

/-- Days in a month, as `datetime` validates dates. -/
def daysInMonth (y m : Nat) : Nat :=
  if m = 2 then (if isLeap y then 29 else 28)
  else if m = 4 ∨ m = 6 ∨ m = 9 ∨ m = 11 then 30
  else 31

/-- Parse an optional `±HH:MM` UTC offset occupying the rest of the input:
`some none` for no offset, `some (some minutes)` for a valid offset, `none`
for trailing garbage or an out-of-range offset. -/
def parseOffset : List Char → Option (Option Int)
  | [] => some none
  | c :: cs =>
    if c = '+' ∨ c = '-' then
      match takeDigits 2 cs with
      | none => none
      | some (oh, cs1) =>
        match expectChar ':' cs1 with
        | none => none
        | some cs2 =>
          match takeDigits 2 cs2 with
          | none => none
          | some (om, cs3) =>
            if cs3 = [] ∧ om ≤ 59 ∧ oh * 60 + om < 1440 then
              some (some (if c = '-' then -(Int.ofNat (oh * 60 + om))
                          else Int.ofNat (oh * 60 + om)))
            else none
    else none

/-- Parse an optional fractional-seconds part `.fff` or `.ffffff`,
returning microseconds and the rest. -/
def parseFrac : List Char → Option (Nat × List Char)
  | '.' :: cs =>
    (match takeDigits 6 cs with
     | some (f, cs1) => some (f, cs1)
     | none =>
       match takeDigits 3 cs with
       | some (f, cs1) => some (f * 1000, cs1)
       | none => none)
  | cs => some (0, cs)

/-- Parse `HH:MM[:SS[.ffffff]][±HH:MM]` occupying the rest of the input. -/
def parseTime (cs : List Char) : Option (Nat × Nat × Nat × Nat × Option Int) :=
  match takeDigits 2 cs with
  | none => none
  | some (hh, cs1) =>
    match expectChar ':' cs1 with
    | none => none
    | some cs2 =>
      match takeDigits 2 cs2 with
      | none => none
      | some (mm, cs3) =>
        match
          (match cs3 with
           | ':' :: cs4 =>
             match takeDigits 2 cs4 with
             | none => none
             | some (ss, cs5) =>
               match parseFrac cs5 with
               | none => none
               | some (us, cs6) => some (ss, us, cs6)
           | _ => some (0, 0, cs3)) with
        | none => none
        | some (ss, us, cs7) =>
          match parseOffset cs7 with
          | none => none
          | some off =>
            if hh ≤ 23 ∧ mm ≤ 59 ∧ ss ≤ 59 then some (hh, mm, ss, us, off) else none

/-- Model of the Python standard-library `datetime.fromisoformat` (external
to this repository) on the canonical `YYYY-MM-DD[THH:MM[:SS[.ffffff]]]`
format with an optional `±HH:MM` offset, exactly the shapes the service
feeds it after its `Z → +00:00` replacement; anything else is a parse
failure (`ValueError`), modelled as `none`. -/
def fromisoformat (s : String) : Option PyDateTime :=
  match takeDigits 4 s.data with
  | none => none
  | some (y, cs1) =>
    match expectChar '-' cs1 with
    | none => none
    | some cs2 =>
      match takeDigits 2 cs2 with
      | none => none
      | some (m, cs3) =>
        match expectChar '-' cs3 with
        | none => none
        | some cs4 =>
          match takeDigits 2 cs4 with
          | none => none
          | some (d, cs5) =>
            if 1 ≤ y ∧ 1 ≤ m ∧ m ≤ 12 ∧ 1 ≤ d ∧ d ≤ daysInMonth y m then
              match cs5 with
              | [] => some ⟨y, m, d, 0, 0, 0, 0, none⟩
              | sep :: cs6 =>
                if sep = 'T' ∨ sep = 't' ∨ sep = ' ' then
                  match parseTime cs6 with
                  | none => none
                  | some (hh, mm, ss, us, off) => some ⟨y, m, d, hh, mm, ss, us, off⟩
                else none
            else none

/-- Python truthiness (`if ts_raw:`) of a decoded JSON value. -/
def truthy : JValue → Bool
  | .null => false
  | .bool b => b
  | .num n => n != 0
  | .str s => s != ""
  | .arr l => !l.isEmpty
  | .obj l => !l.isEmpty

/-- The client-timestamp parse of `ingest_telemetry` (main.py lines 87-94):
`client_ts = None`; when `body.get("timestamp")` is truthy, attempt
`datetime.fromisoformat(ts_raw.replace("Z", "+00:00"))`, where a
`ValueError` (unparsable string) or `AttributeError` (non-string value, no
`.replace`) is caught and leaves `client_ts = None`. -/
def parseClientTs (ts_raw : Option JValue) : Option PyDateTime :=
  match ts_raw with
  | some (JValue.str s) => if s = "" then none else fromisoformat (pyReplaceZ s)
  | some _ => none
  | none => none

/-- One row of `telemetry_events` as `ingest_telemetry` binds it: each
column receives the JSON value of its key (`null` when absent, like
Python's `body.get`), except `event` which defaults to the string
`"unknown"`, the parsed `client_timestamp`, and the verbatim body. -/
structure TelemetryRow where
  source_ip : Option String
  event : JValue
  fingerprint : JValue
  environment : JValue
  env_source : JValue
  public_ip : JValue
  server_url : JValue
  provider : JValue
  node_count : JValue
  cp_nodes : JValue
  namespace_count : JValue
  k10_version : JValue
  enterprise_score : JValue
  license_key_provided : JValue
  license_key_valid : JValue
  unlicensed_run_count : JValue
  src_hash : JValue
  tool_version : JValue
  client_timestamp : Option PyDateTime
  raw_payload : List (String × JValue)
deriving BEq, Repr

/-- The row built by `ingest_telemetry` (main.py lines 87-132) from the
decoded JSON object `body`; `source_ip` is the header-derived source
address computed on lines 81-85. -/
def ingestRow (source_ip : Option String) (body : List (String × JValue)) : TelemetryRow :=
  { source_ip := source_ip
    event := (jget body "event").getD (JValue.str "unknown")
    fingerprint := (jget body "fingerprint").getD JValue.null
    environment := (jget body "environment").getD JValue.null
    env_source := (jget body "env_source").getD JValue.null
    public_ip := (jget body "public_ip").getD JValue.null
    server_url := (jget body "server_url").getD JValue.null
    provider := (jget body "provider").getD JValue.null
    node_count := (jget body "node_count").getD JValue.null
    cp_nodes := (jget body "cp_nodes").getD JValue.null
    namespace_count := (jget body "namespace_count").getD JValue.null
    k10_version := (jget body "k10_version").getD JValue.null
    enterprise_score := (jget body "enterprise_score").getD JValue.null
    license_key_provided := (jget body "license_key_provided").getD JValue.null
    license_key_valid := (jget body "license_key_valid").getD JValue.null
    unlicensed_run_count := (jget body "unlicensed_run_count").getD JValue.null
    src_hash := (jget body "src_hash").getD JValue.null
    tool_version := (jget body "tool_version").getD JValue.null
    client_timestamp := parseClientTs (jget body "timestamp")
    raw_payload := body }

/-- The HTTP response of the ingest endpoint. -/
inductive IngestResponse where
  | ok
  | serverError
deriving DecidableEq, Repr

/-- `ingest_telemetry` end to end: builds the row and runs the insert;
`insertOk` models whether `pool.execute` raises (a raise propagates and the
framework turns it into a server error, otherwise the endpoint returns
`{"status": "ok"}`). -/
def ingestTelemetry (source_ip : Option String) (body : List (String × JValue))
    (insertOk : Bool) : TelemetryRow × IngestResponse :=
  (ingestRow source_ip body, if insertOk then .ok else .serverError)

/-- A bound query parameter of the read endpoints. -/
inductive QueryParam where
  | str (s : String)
  | ts (t : PyDateTime)
deriving DecidableEq, Repr

/-- Outcome of a read endpoint before any rows flow: either an early
client-error response, or the SQL text, bound parameters and limit handed
to `pool.fetch`. -/
inductive QueryOutcome where
  | clientError (status : Nat) (msg : String)
  | fetch (sql : String) (params : List QueryParam) (limit : Int)
deriving DecidableEq, Repr

/-- Python truthiness of an optional string query parameter
(`if fingerprint:`): present and non-empty. -/
def truthyOpt : Option String → Bool
  | none => false
  | some s => s != ""

/-- The clause list, parameter list and running `$n` index built by the
read endpoints. -/
structure FilterAcc where
  clauses : List String
  params : List QueryParam
  idx : Nat
deriving DecidableEq, Repr

/-- One `if param: clauses.append(f"col = $idx"); params.append(param);
idx += 1` step of the read endpoints. -/
def addStrFilter (col : String) (v : Option String) (acc : FilterAcc) : FilterAcc :=
  if truthyOpt v then
    { clauses := acc.clauses ++ [col ++ " = $" ++ Nat.repr acc.idx]
      params := acc.params ++ [QueryParam.str (v.getD "")]
      idx := acc.idx + 1 }
  else acc

/-- The `since` step of the read endpoints (main.py lines 159-165 and
199-205): the clause is appended first, then the value is parsed; a
`ValueError` short-circuits into a 400 response. -/
def addSinceFilter (v : Option String) (acc : FilterAcc) : Except (Nat × String) FilterAcc :=
  if truthyOpt v then
    match fromisoformat (pyReplaceZ (v.getD "")) with
    | some t =>
      .ok { clauses := acc.clauses ++ ["received_at >= $" ++ Nat.repr acc.idx]
            params := acc.params ++ [QueryParam.ts t]
            idx := acc.idx + 1 }
    | none => .error (400, "invalid 'since' format")
  else .ok acc

/-- The `WHERE` fragment: `f"WHERE {' AND '.join(clauses)}" if clauses
else ""`. -/
def whereStr (clauses : List String) : String :=
  if clauses.isEmpty then "" else "WHERE " ++ String.intercalate " AND " clauses

/-- Python `min(max(1, limit), 1000)` (main.py lines 168 and 208). -/
def clampLimit (limit : Int) : Int := min (max 1 limit) 1000

/-- The FastAPI signature default `limit: int = 100`. -/
def DEFAULT_LIMIT : Int := 100

/-- `query_telemetry` (main.py lines 140-174) up to the `pool.fetch` call:
filter construction in the fixed order fingerprint, environment, since;
400 on a malformed non-empty `since`; limit clamped to [1, 1000]. -/
def queryTelemetry (fingerprint environment since : Option String) (limit : Int) :
    QueryOutcome :=
  let acc1 := addStrFilter "fingerprint" fingerprint ⟨[], [], 1⟩
  let acc2 := addStrFilter "environment" environment acc1
  match addSinceFilter since acc2 with
  | .error e => QueryOutcome.clientError e.1 e.2
  | .ok acc3 =>
    QueryOutcome.fetch
      ("SELECT * FROM telemetry_events " ++ whereStr acc3.clauses ++
        " ORDER BY received_at DESC LIMIT $" ++ Nat.repr acc3.idx)
      acc3.params (clampLimit limit)

/-- `query_dns` (main.py lines 185-214) up to the `pool.fetch` call: same
construction without the `environment` filter, against `dns_beacon_log`. -/
def queryDns (fingerprint since : Option String) (limit : Int) : QueryOutcome :=
  let acc1 := addStrFilter "fingerprint" fingerprint ⟨[], [], 1⟩
  match addSinceFilter since acc1 with
  | .error e => QueryOutcome.clientError e.1 e.2
  | .ok acc2 =>
    QueryOutcome.fetch
      ("SELECT * FROM dns_beacon_log " ++ whereStr acc2.clauses ++
        " ORDER BY received_at DESC LIMIT $" ++ Nat.repr acc2.idx)
      acc2.params (clampLimit limit)

/-! ## Helper lemmas about the resolver -/

/-- With a succeeding connect, `_get_conn` always hands back a connection. -/
lemma getConn_true_conn_ne (st : ResolverState) : (getConn st true).conn ≠ none := by
  unfold getConn
  by_cases h : connUsable st.conn = true
  · cases hc : st.conn with
    | none => rw [hc] at h; simp [connUsable] at h
    | some c => rw [hc] at h; simp [h, hc]
  · simp at h
    simp [h]

/-- A successful insert stores exactly the row `_log_beacon` was given. -/
lemma logBeacon_ok_insertedRow (st : ResolverState) (cOk : Bool) (row : DnsRow)
    (h : (getConn st cOk).conn ≠ none) :
    (logBeacon st cOk true row).insertedRow = some row := by
  unfold logBeacon
  dsimp only
  split
  · next hg => exact absurd hg h
  · next c hg => simp

/-! ## Claims about the DNS beacon path -/

/-- C1 (counterexample): for the query name that is exactly the beacon
suffix, the decode does match, but the decoded fingerprint is NOT null: it
is the empty string, because splitting the empty remainder yields one empty
label.  This refutes the claim that all three decoded fields are null. -/
theorem decode_suffix_only_fingerprint_not_null_cex :
    (decodeBeacon ".b.backup-monitor.gr.").matched = true ∧
    (decodeBeacon ".b.backup-monitor.gr.").fingerprint ≠ none ∧
    decodeBeacon ".b.backup-monitor.gr." = ⟨true, some "", none, none⟩ := by
  decide

/-- C1 (amended): for a query name that case-insensitively ends with the
beacon suffix and whose remainder after stripping the suffix and trailing
dots is empty, the decode classifies it as a beacon match, the fingerprint
is the empty string (splitting the empty remainder yields one empty label),
src_hash and tool_version are null, and a DNS log row is still inserted
(when the storage path succeeds, the inserted row carries those fields). -/
theorem decode_suffix_only_all_fields (qname : String) (st : ResolverState)
    (src : Option (String × Nat))
    (h1 : pyEndsWith (pyLower qname) (pyLower BEACON_SUFFIX) = true)
    (h2 : pyRstripDot (pyDropRight qname BEACON_SUFFIX.length) = "") :
    decodeBeacon qname = ⟨true, some "", none, none⟩ ∧
    (resolve st qname src true true).insertedRow =
      some ⟨src.map Prod.fst, src.map Prod.snd, qname, some "", none, none⟩ := by
  have hd : decodeBeacon qname = ⟨true, some "", none, none⟩ := by
    unfold decodeBeacon
    rw [h1, h2]
    decide
  refine ⟨hd, ?_⟩
  unfold resolve
  dsimp only
  rw [hd]
  simpa using logBeacon_ok_insertedRow st true
    ⟨src.map Prod.fst, src.map Prod.snd, qname, some "", none, none⟩
    (getConn_true_conn_ne st)

/-- C1 (witness). -/
theorem decode_suffix_only_all_fields_witness :
    decodeBeacon ".B.Backup-Monitor.GR." = ⟨true, some "", none, none⟩ ∧
    (resolve initState ".B.Backup-Monitor.GR." (some ("203.0.113.5", 40000)) true true).insertedRow =
      some ⟨some "203.0.113.5", some 40000, ".B.Backup-Monitor.GR.", some "", none, none⟩ :=
  decode_suffix_only_all_fields ".B.Backup-Monitor.GR." initState
    (some ("203.0.113.5", 40000)) (by decide) (by decide)

/-- C2 (confirmed): every `resolve` call returns a reply whose result code
is NXDOMAIN, for every query name, every peer address, and every outcome of
the storage connect and insert. -/
theorem resolve_always_nxdomain (st : ResolverState) (qname : String)
    (source : Option (String × Nat)) (connectOk insertOk : Bool) :
    (resolve st qname source connectOk insertOk).rcode = RCode.NXDOMAIN := by
  unfold resolve
  dsimp only
  split <;> rfl

/-- C3 (confirmed): under repeated consecutive connect failures starting
from the initial resolver state the sleep delays are 1,2,4,8,16,32,60,60;
from any state with backoff within the 60 ceiling every delay stays within
60; a successful connect resets the backoff to 1; and a failed acquisition
returns no connection ("unavailable") to the caller. -/
theorem backoff_spec :
    failDelays initState 8 = [1, 2, 4, 8, 16, 32, 60, 60] ∧
    (∀ st n, st.backoff ≤ 60 → ∀ d ∈ failDelays st n, d ≤ 60) ∧
    (∀ st, connUsable st.conn = false → (getConn st true).state.backoff = 1) ∧
    (∀ st, connUsable st.conn = false → (getConn st false).conn = none) := by
  refine ⟨by decide, ?_, ?_, ?_⟩
  · intro st n
    induction n generalizing st with
    | zero => intro _ d hd; simp [failDelays] at hd
    | succ n ih =>
      intro h d hd
      unfold failDelays at hd
      by_cases hc : connUsable st.conn = true
      · rw [show getConn st false = ⟨st.conn, st, none⟩ by unfold getConn; rw [hc]; rfl] at hd
        simp only [Option.toList_none, List.nil_append] at hd
        exact ih st h d hd
      · simp only [Bool.not_eq_true] at hc
        rw [show getConn st false = ⟨none, ⟨none, min (st.backoff * 2) 60⟩, some st.backoff⟩ by
          unfold getConn; rw [hc]; rfl] at hd
        simp only [Option.toList_some, List.cons_append, List.nil_append, List.mem_cons] at hd
        rcases hd with rfl | hd
        · exact h
        · exact ih ⟨none, min (st.backoff * 2) 60⟩ (by simp) d hd
  · intro st h
    unfold getConn
    rw [h]
    rfl
  · intro st h
    unfold getConn
    rw [h]
    rfl

/-- C3 (witness). -/
theorem backoff_spec_witness :
    (1 : Nat) ≤ 60 ∧ (getConn initState true).state.backoff = 1 ∧
    (getConn initState false).conn = none :=
  ⟨backoff_spec.2.1 initState 3 (by decide) 1 (by decide),
   backoff_spec.2.2.1 initState (by decide),
   backoff_spec.2.2.2 initState (by decide)⟩

/-- C4 (confirmed): when the insert raises, `_log_beacon` swallows the
error (it returns normally, with no row recorded) and discards the current
connection, so the next `_get_conn` call goes through the reconnect branch;
the resolver still answers the query with NXDOMAIN. -/
theorem insert_error_swallowed :
    (∀ st cOk row, (getConn st cOk).conn ≠ none →
      (logBeacon st cOk false row).state.conn = none ∧
      (logBeacon st cOk false row).insertedRow = none ∧
      connUsable (logBeacon st cOk false row).state.conn = false) ∧
    (∀ st qname src cOk,
      (resolve st qname src cOk false).rcode = RCode.NXDOMAIN) := by
  constructor
  · intro st cOk row h
    unfold logBeacon
    dsimp only
    split
    · next hg => exact absurd hg h
    · next c hg => simp [connUsable]
  · intro st qname src cOk
    unfold resolve
    dsimp only
    split <;> rfl

/-- C4 (witness). -/
theorem insert_error_swallowed_witness :
    (logBeacon ⟨some ⟨false⟩, 1⟩ true false ⟨none, none, "q", none, none, none⟩).state.conn = none ∧
    (resolve initState "fp.b.backup-monitor.gr." none true false).rcode = RCode.NXDOMAIN :=
  ⟨(insert_error_swallowed.1 ⟨some ⟨false⟩, 1⟩ true ⟨none, none, "q", none, none, none⟩
      (by decide)).1,
   insert_error_swallowed.2 initState "fp.b.backup-monitor.gr." none true⟩

/-- C5 (confirmed): for any beacon-matching name the labels of the stripped
remainder are mapped by position — label 0 to fingerprint, label 1 to
src_hash, label 2 (dashes replaced by dots) to tool_version, labels beyond
index 2 ignored, missing trailing positions null; in particular the labels
abc123, deadbeef, 1-2-3 decode to abc123 / deadbeef / 1.2.3. -/
theorem decode_positional_mapping :
    (∀ qname, pyEndsWith (pyLower qname) (pyLower BEACON_SUFFIX) = true →
      decodeBeacon qname =
        { matched := true
          fingerprint := (pySplitDot (pyRstripDot (pyDropRight qname BEACON_SUFFIX.length)))[0]?
          src_hash := (pySplitDot (pyRstripDot (pyDropRight qname BEACON_SUFFIX.length)))[1]?
          tool_version :=
            ((pySplitDot (pyRstripDot (pyDropRight qname BEACON_SUFFIX.length)))[2]?).map
              pyReplaceDash }) ∧
    decodeBeacon "abc123.deadbeef.1-2-3.b.backup-monitor.gr."
      = ⟨true, some "abc123", some "deadbeef", some "1.2.3"⟩ ∧
    decodeBeacon "a.b.c.d.e.b.backup-monitor.gr." = ⟨true, some "a", some "b", some "c"⟩ ∧
    decodeBeacon "solo.b.backup-monitor.gr." = ⟨true, some "solo", none, none⟩ ∧
    decodeBeacon "fp.hash.b.backup-monitor.gr." = ⟨true, some "fp", some "hash", none⟩ := by
  refine ⟨?_, by decide, by decide, by decide, by decide⟩
  intro qname h
  unfold decodeBeacon
  rw [h]
  rfl

/-- C5 (witness). -/
theorem decode_positional_mapping_witness :
    decodeBeacon "abc123.deadbeef.1-2-3.b.backup-monitor.gr." =
      { matched := true
        fingerprint :=
          (pySplitDot (pyRstripDot (pyDropRight "abc123.deadbeef.1-2-3.b.backup-monitor.gr."
            BEACON_SUFFIX.length)))[0]?
        src_hash :=
          (pySplitDot (pyRstripDot (pyDropRight "abc123.deadbeef.1-2-3.b.backup-monitor.gr."
            BEACON_SUFFIX.length)))[1]?
        tool_version :=
          ((pySplitDot (pyRstripDot (pyDropRight "abc123.deadbeef.1-2-3.b.backup-monitor.gr."
            BEACON_SUFFIX.length)))[2]?).map pyReplaceDash } :=
  decode_positional_mapping.1 "abc123.deadbeef.1-2-3.b.backup-monitor.gr." (by decide)

/-- C6 (confirmed): a query name that does not case-insensitively end with
the beacon suffix is classified as not-a-beacon, `_log_beacon` is never
invoked, no row is inserted, and the resolver state is untouched. -/
theorem non_beacon_no_row (qname : String) (st : ResolverState)
    (src : Option (String × Nat)) (cOk iOk : Bool)
    (h : pyEndsWith (pyLower qname) (pyLower BEACON_SUFFIX) = false) :
    decodeBeacon qname = ⟨false, none, none, none⟩ ∧
    (resolve st qname src cOk iOk).insertedRow = none ∧
    (resolve st qname src cOk iOk).loggedBeacon = false ∧
    (resolve st qname src cOk iOk).state = st := by
  have hd : decodeBeacon qname = ⟨false, none, none, none⟩ := by
    unfold decodeBeacon
    rw [h]
    rfl
  refine ⟨hd, ?_, ?_, ?_⟩ <;>
    (unfold resolve; dsimp only; rw [hd]; rfl)

/-- C6 (witness). -/
theorem non_beacon_no_row_witness :
    decodeBeacon "www.example.com." = ⟨false, none, none, none⟩ ∧
    (resolve initState "www.example.com." (some ("198.51.100.7", 9999)) true true).insertedRow
      = none :=
  ⟨(non_beacon_no_row "www.example.com." initState (some ("198.51.100.7", 9999)) true true
      (by decide)).1,
   (non_beacon_no_row "www.example.com." initState (some ("198.51.100.7", 9999)) true true
      (by decide)).2.1⟩

/-! ## Claims about the HTTP API -/

/-- The `since` step is the identity when the parameter is the empty
string, exactly as when it is absent. -/
lemma addSinceFilter_empty (acc : FilterAcc) : addSinceFilter (some "") acc = Except.ok acc :=
  rfl

/-- C7 (confirmed): the ingest endpoint stores event "unknown" when the
body lacks an `event` key; the stored client timestamp is the lenient
parse of the `timestamp` field, where `Z` is first replaced by `+00:00`
(so 2024-01-01T00:00:00Z stores 2024-01-01 00:00:00 at UTC offset 0), and
an absent, unparsable or non-string `timestamp` yields null; the response
depends only on the insert outcome, never on the timestamp. -/
theorem ingest_timestamp_lenient :
    (∀ src body insertOk, jget body "event" = none →
      (ingestTelemetry src body insertOk).1.event = JValue.str "unknown") ∧
    (∀ src body insertOk, (ingestTelemetry src body insertOk).2 =
      if insertOk then IngestResponse.ok else IngestResponse.serverError) ∧
    (∀ src body, (ingestTelemetry src body true).2 = IngestResponse.ok) ∧
    (∀ src body insertOk, (ingestTelemetry src body insertOk).1.client_timestamp =
      parseClientTs (jget body "timestamp")) ∧
    parseClientTs (some (JValue.str "2024-01-01T00:00:00Z")) =
      some ⟨2024, 1, 1, 0, 0, 0, 0, some 0⟩ ∧
    parseClientTs none = none ∧
    (∀ v, (∀ s, v ≠ JValue.str s) → parseClientTs (some v) = none) ∧
    (∀ s, fromisoformat (pyReplaceZ s) = none → parseClientTs (some (JValue.str s)) = none) ∧
    parseClientTs (some (JValue.str "not-a-date")) = none := by
  refine ⟨?_, ?_, ?_, ?_, by decide, rfl, ?_, ?_, by decide⟩
  · intro src body insertOk h
    simp [ingestTelemetry, ingestRow, h]
  · intro src body insertOk
    rfl
  · intro src body
    rfl
  · intro src body insertOk
    rfl
  · intro v h
    cases v <;> first | rfl | exact absurd rfl (h _)
  · intro s h
    have hdef : parseClientTs (some (JValue.str s))
        = if s = "" then none else fromisoformat (pyReplaceZ s) := rfl
    rw [hdef, h]
    split <;> rfl

/-- C7 (witness). -/
theorem ingest_timestamp_lenient_witness :
    (ingestTelemetry none [("fingerprint", JValue.str "fp")] true).1.event
      = JValue.str "unknown" ∧
    parseClientTs (some (JValue.num 5)) = none ∧
    parseClientTs (some (JValue.str "2024-13-01")) = none :=
  ⟨ingest_timestamp_lenient.1 none [("fingerprint", JValue.str "fp")] true rfl,
   ingest_timestamp_lenient.2.2.2.2.2.2.1 (JValue.num 5) (fun _ h => JValue.noConfusion h),
   ingest_timestamp_lenient.2.2.2.2.2.2.2.1 "2024-13-01" (by decide)⟩

/-- C8 (confirmed): a non-empty `since` whose `Z`-normalized form fails
ISO-8601 parsing makes both read endpoints return the 400 client error
with the explicit message, and no fetch is ever issued. -/
theorem bad_since_client_error (f e : Option String) (s : String) (limit : Int)
    (hne : s ≠ "") (hp : fromisoformat (pyReplaceZ s) = none) :
    queryTelemetry f e (some s) limit = QueryOutcome.clientError 400 "invalid 'since' format" ∧
    queryDns f (some s) limit = QueryOutcome.clientError 400 "invalid 'since' format" ∧
    (¬ ∃ sql params lim, queryTelemetry f e (some s) limit = QueryOutcome.fetch sql params lim) ∧
    (¬ ∃ sql params lim, queryDns f (some s) limit = QueryOutcome.fetch sql params lim) := by
  have key : ∀ acc, addSinceFilter (some s) acc = Except.error (400, "invalid 'since' format") := by
    intro acc
    unfold addSinceFilter
    have ht : truthyOpt (some s) = true := by simp [truthyOpt, hne]
    rw [ht]
    simp [hp]
  have h1 : queryTelemetry f e (some s) limit
      = QueryOutcome.clientError 400 "invalid 'since' format" := by
    unfold queryTelemetry
    dsimp only
    rw [key]
  have h2 : queryDns f (some s) limit
      = QueryOutcome.clientError 400 "invalid 'since' format" := by
    unfold queryDns
    dsimp only
    rw [key]
  refine ⟨h1, h2, ?_, ?_⟩
  · rintro ⟨sql, params, lim, hc⟩
    rw [h1] at hc
    exact QueryOutcome.noConfusion hc
  · rintro ⟨sql, params, lim, hc⟩
    rw [h2] at hc
    exact QueryOutcome.noConfusion hc

/-- C8 (witness). -/
theorem bad_since_client_error_witness :
    queryTelemetry none none (some "not-a-date") 100
      = QueryOutcome.clientError 400 "invalid 'since' format" ∧
    queryDns none (some "not-a-date") 100
      = QueryOutcome.clientError 400 "invalid 'since' format" :=
  ⟨(bad_since_client_error none none "not-a-date" 100 (by decide) (by decide)).1,
   (bad_since_client_error none none "not-a-date" 100 (by decide) (by decide)).2.1⟩

/-- C9 (confirmed): whenever either read endpoint reaches its fetch, the
limit actually bound is min(max(1, limit), 1000); 5000 clamps to 1000, 0
clamps to 1, and the signature default 100 passes through unchanged. -/
theorem limit_clamped :
    (∀ f e s limit sql params lim,
      queryTelemetry f e s limit = QueryOutcome.fetch sql params lim →
      lim = min (max 1 limit) 1000) ∧
    (∀ f s limit sql params lim,
      queryDns f s limit = QueryOutcome.fetch sql params lim →
      lim = min (max 1 limit) 1000) ∧
    queryTelemetry none none none 5000 = QueryOutcome.fetch
      "SELECT * FROM telemetry_events  ORDER BY received_at DESC LIMIT $1" [] 1000 ∧
    queryTelemetry none none none 0 = QueryOutcome.fetch
      "SELECT * FROM telemetry_events  ORDER BY received_at DESC LIMIT $1" [] 1 ∧
    queryDns none none 5000 = QueryOutcome.fetch
      "SELECT * FROM dns_beacon_log  ORDER BY received_at DESC LIMIT $1" [] 1000 ∧
    queryDns none none 0 = QueryOutcome.fetch
      "SELECT * FROM dns_beacon_log  ORDER BY received_at DESC LIMIT $1" [] 1 ∧
    queryTelemetry none none none DEFAULT_LIMIT = QueryOutcome.fetch
      "SELECT * FROM telemetry_events  ORDER BY received_at DESC LIMIT $1" [] 100 ∧
    queryDns none none DEFAULT_LIMIT = QueryOutcome.fetch
      "SELECT * FROM dns_beacon_log  ORDER BY received_at DESC LIMIT $1" [] 100 := by
  refine ⟨?_, ?_, by decide, by decide, by decide, by decide, by decide, by decide⟩
  · intro f e s limit sql params lim h
    unfold queryTelemetry at h
    dsimp only at h
    split at h
    · exact QueryOutcome.noConfusion h
    · injection h with h1 h2 h3
      exact h3.symm
  · intro f s limit sql params lim h
    unfold queryDns at h
    dsimp only at h
    split at h
    · exact QueryOutcome.noConfusion h
    · injection h with h1 h2 h3
      exact h3.symm

/-- C9 (witness). -/
theorem limit_clamped_witness :
    (7 : Int) = min (max 1 7) 1000 ∧ (9 : Int) = min (max 1 9) 1000 :=
  ⟨limit_clamped.1 none none none 7
      "SELECT * FROM telemetry_events  ORDER BY received_at DESC LIMIT $1" [] 7 (by decide),
   limit_clamped.2.1 none none 9
      "SELECT * FROM dns_beacon_log  ORDER BY received_at DESC LIMIT $1" [] 9 (by decide)⟩

/-- C10 (confirmed): an empty-string `fingerprint`, `environment` or
`since` contributes no filter clause — the constructed query is the one
obtained with the parameter absent — and an empty `since` in particular is
never a client error: the endpoint still reaches its fetch. -/
theorem empty_params_no_filter :
    (∀ e s l, queryTelemetry (some "") e s l = queryTelemetry none e s l) ∧
    (∀ f s l, queryTelemetry f (some "") s l = queryTelemetry f none s l) ∧
    (∀ f e l, queryTelemetry f e (some "") l = queryTelemetry f e none l) ∧
    (∀ s l, queryDns (some "") s l = queryDns none s l) ∧
    (∀ f l, queryDns f (some "") l = queryDns f none l) ∧
    (∀ f e l, ∃ sql params lim, queryTelemetry f e (some "") l
      = QueryOutcome.fetch sql params lim) ∧
    (∀ f l, ∃ sql params lim, queryDns f (some "") l = QueryOutcome.fetch sql params lim) := by
  refine ⟨?_, ?_, ?_, ?_, ?_, ?_, ?_⟩
  · intro e s l; rfl
  · intro f s l; rfl
  · intro f e l; rfl
  · intro s l; rfl
  · intro f l; rfl
  · intro f e l
    unfold queryTelemetry
    dsimp only
    rw [addSinceFilter_empty]
    exact ⟨_, _, _, rfl⟩
  · intro f l
    unfold queryDns
    dsimp only
    rw [addSinceFilter_empty]
    exact ⟨_, _, _, rfl⟩

end BackupMonitor
